import Mathlib

/-!
Verification development for the mTLS side-car proxy
(sources: src/mtls-proxy/src/{main,config,proxy,tls}.rs).

The Rust code is shallowly embedded: asynchronous operations become
explicit values carrying a completion time and a result, network and
file-system behaviour becomes an explicit oracle (world) record, and
observable side effects (log lines, bind attempts, TCP connection
attempts, task spawns) become an explicit event list.  Errors are
modelled the way the code actually represents them: every failure site
produces an anyhow error, which at the observable level is a single
catch-all constructor around a message string.
-/

namespace MTLSProxy

/-- Model of anyhow Error as the program uses it: a single catch-all
constructor carrying a message string.  The code never defines any
richer error enumeration; every failure site builds such a value. -/
inductive AnyhowError where
  | msg : String → AnyhowError
deriving DecidableEq, Repr

/-- The error value built by with_timeout in proxy.rs line 246:
anyhow msg "Operation timed out after {dur}". -/
def timeoutMsg (durSecs : Nat) : AnyhowError :=
  AnyhowError.msg ("Operation timed out after " ++ toString durSecs ++ "s")

/-- Model of an awaited asynchronous operation: how long it takes to
complete and the result it completes with.  This mirrors a Rust Future
whose output is an anyhow Result. -/
structure Fut (α : Type) where
  time : Nat
  result : Except AnyhowError α

/-- Awaiting a future directly (a bare .await in the source, with no
timeout combinator around it) waits however long the future takes and
yields its result: the elapsed time does not influence the outcome. -/
def awaitFut {α : Type} (f : Fut α) : Except AnyhowError α :=
  f.result

/-- Model of Proxy::with_timeout (proxy.rs lines 238 to 248): tokio
timeout races the future against the deadline; when the future
completes within the duration its own result is returned, otherwise
the anyhow timeout error is returned. -/
def with_timeout {α : Type} (fut : Fut α) (durSecs : Nat) : Except AnyhowError α :=
  if fut.time ≤ durSecs then fut.result
  else Except.error (timeoutMsg durSecs)

/-- Model of one direction of an established TLS stream as the relay
sees it: the bytes the peer will deliver, then either a clean
end-of-stream (none) or an I/O error (some e). -/
structure Stream where
  bytes : List Nat
  term : Option AnyhowError
deriving DecidableEq, Repr

/-- What the relay leaves behind: bytes delivered in each direction
and the final result of tokio io copy_bidirectional. -/
structure RelayOutcome where
  toUpstream : List Nat
  toClient : List Nat
  result : Except AnyhowError (Nat × Nat)

/-- Model of tokio io copy_bidirectional per its contract: it copies
each side to the other until end-of-stream on both (returning the two
byte counts) or until an I/O error on either side (returning that
error).  Bytes already copied stay delivered either way; nothing is
rolled back. -/
def copy_bidirectional (down up : Stream) : RelayOutcome :=
  { toUpstream := down.bytes
    toClient := up.bytes
    result :=
      match down.term, up.term with
      | none, none => Except.ok (down.bytes.length, up.bytes.length)
      | some e, _ => Except.error e
      | none, some e => Except.error e }

/-- Observable side effects of the proxy, in program order. -/
inductive Event where
  | bindAttempt (addr : String)
  | warnAcceptFailed
  | spawnConn
  | tcpConnectAttempt (addr : String)
  | logConnClosed (fromClient fromServer : Nat)
  | logPipeError
  | warnClientHandshakeFailed
  | warnUpstreamFailed
  | logConnError
  | logRunError
deriving DecidableEq, Repr

/-- Model of Proxy::pipe (proxy.rs lines 159 to 175): await
copy_bidirectional with no timeout combinator; on success log the two
byte counts and return unit, on error log and propagate the error. -/
def pipe (relayTime : Nat) (down up : Stream) : Except AnyhowError Unit × List Event :=
  match awaitFut ⟨relayTime, (copy_bidirectional down up).result⟩ with
  | Except.ok (fromClient, fromServer) =>
      (Except.ok (), [Event.logConnClosed fromClient fromServer])
  | Except.error e => (Except.error e, [Event.logPipeError])

/-- TLS section of the YAML configuration (config.rs lines 26 to 32). -/
structure TlsConfig where
  ca_file : String
  server_cert : String
  server_key : String
  client_cert : String
  client_key : String

/-- Top-level configuration (config.rs lines 19 to 23). -/
structure Config where
  listen : String
  upstream : String
  tls : TlsConfig

/-- Per-connection network oracle: what the handshakes, the raw TCP
dial and the relay would do on this particular connection. -/
structure ConnWorld where
  inboundHs : Fut Stream
  tcpConnect : Fut Unit
  serverNameValid : String → Bool
  outboundHs : Fut Stream
  relayTime : Nat

/-- Model of Proxy::tls_accept (proxy.rs lines 111 to 120): the
server-side handshake future wrapped in with_timeout with a deadline
of Duration from_secs 5. -/
def tls_accept (w : ConnWorld) : Except AnyhowError Stream :=
  with_timeout w.inboundHs 5

/-- Whether an address string contains the colon separator. -/
def addrHasColon (addr : String) : Bool :=
  addr.data.any (fun c => c == ':')

/-- Splitting a character list on the colon separator; the result is
never empty, matching the Rust split iterator. -/
def splitOnColon : List Char → List (List Char)
  | [] => [[]]
  | c :: rest =>
    if c == ':' then [] :: splitOnColon rest
    else
      match splitOnColon rest with
      | [] => [[c]]
      | f :: fs => (c :: f) :: fs

/-- Model of tokio TcpStream::connect on a string address, per the
std ToSocketAddrs contract for str: the string resolves only when it
has the form host colon port, so a string lacking a colon fails during
address resolution and no TCP connection attempt is made; otherwise
the dial is attempted against the network oracle.  The raw dial is
awaited bare (proxy.rs line 137), so its duration never matters. -/
def tcpStreamConnect (addr : String) (w : ConnWorld) : Except AnyhowError Unit × List Event :=
  if addrHasColon addr then
    (awaitFut w.tcpConnect, [Event.tcpConnectAttempt addr])
  else
    (Except.error (AnyhowError.msg ("invalid socket address: " ++ addr)), [])

/-- Model of the Rust expression upstream.split(":").next(): the first
fragment of splitting on the colon.  Rust split always yields at least
one fragment, as does List.head? over splitOnColon here. -/
def rustSplitNext (s : String) : Option String :=
  ((splitOnColon s.data).head?).map (fun cs => String.mk cs)

/-- Model of Proxy::connect_upstream (proxy.rs lines 135 to 150): dial
the upstream with a bare await, then take the host fragment before the
colon, build the TLS server name, and run the client-side handshake
under with_timeout with a deadline of Duration from_secs 10. -/
def connect_upstream (cfg : Config) (w : ConnWorld) : Except AnyhowError Stream × List Event :=
  match tcpStreamConnect cfg.upstream w with
  | (Except.error e, evs) => (Except.error e, evs)
  | (Except.ok _, evs) =>
    match rustSplitNext cfg.upstream with
    | none => (Except.error (AnyhowError.msg "invalid upstream address"), evs)
    | some host =>
      if w.serverNameValid host then
        (with_timeout w.outboundHs 10, evs)
      else
        (Except.error (AnyhowError.msg "invalid ServerName for upsream"), evs)

/-- Model of Proxy::handle_connection (proxy.rs lines 203 to 223):
inbound handshake first; on its failure warn and return the error
without touching the upstream; then the outbound dial; on its failure
warn and return the error; then the relay. -/
def handle_connection (cfg : Config) (w : ConnWorld) : Except AnyhowError Unit × List Event :=
  match tls_accept w with
  | Except.error e => (Except.error e, [Event.warnClientHandshakeFailed])
  | Except.ok down =>
    match connect_upstream cfg w with
    | (Except.error e, evs) => (Except.error e, evs ++ [Event.warnUpstreamFailed])
    | (Except.ok up, evs) =>
      match pipe w.relayTime down up with
      | (r, pevs) => (r, evs ++ pevs)

/-- Model of a DER certificate as rustls sees it: opaque bytes plus
whether RootCertStore add_parsable_certificates can parse it. -/
structure CertDer where
  der : List Nat
  parsable : Bool
deriving DecidableEq, Repr

/-- Abstract content of one file on disk, as the two rustls_pemfile
iterators used by tls.rs view it: whether File::open succeeds, the
stream of certificate items the certs iterator yields (each either a
parse error or a certificate), and the stream of PKCS8 key items the
pkcs8_private_keys iterator yields. -/
structure FileContent where
  opens : Bool
  pems : List (Except Unit CertDer)
  keys : List (Except Unit Unit)

/-- File-system oracle: content of each path. -/
def FileSys : Type :=
  String → FileContent

/-- Collecting the certs iterator into a Result of Vec (tls.rs lines
29 to 31): the first parse error fails the whole read. -/
def collectCerts : List (Except Unit CertDer) → Except AnyhowError (List CertDer)
  | [] => Except.ok []
  | Except.error _ :: _ => Except.error (AnyhowError.msg "failed to parse certificate")
  | Except.ok c :: rest => Except.map (fun cs => c :: cs) (collectCerts rest)

/-- Model of tls.rs cert_reader (lines 24 to 33): open the file and
collect every certificate, failing on the first parse error. -/
def cert_reader (fs : FileSys) (path : String) : Except AnyhowError (List CertDer) :=
  if (fs path).opens then collectCerts (fs path).pems
  else Except.error (AnyhowError.msg ("failed to open " ++ path))

/-- Model of tls.rs privkey_reader (lines 35 to 46): take the first
PKCS8 key item; a parse error propagates, an empty stream yields the
no-key-found error. -/
def privkey_reader (fs : FileSys) (path : String) : Except AnyhowError Unit :=
  if (fs path).opens then
    match (fs path).keys.head? with
    | none => Except.error (AnyhowError.msg ("no PKCS8 key found in " ++ path))
    | some (Except.error _) => Except.error (AnyhowError.msg "failed to parse private key")
    | some (Except.ok k) => Except.ok k
  else Except.error (AnyhowError.msg ("failed to open " ++ path))

/-- Model of tls.rs load_root_store (lines 48 to 59): read the CA
certificates, keep the parsable ones (add_parsable_certificates), and
fail when the resulting store is empty. -/
def load_root_store (fs : FileSys) (path : String) : Except AnyhowError (List CertDer) :=
  match cert_reader fs path with
  | Except.error e => Except.error e
  | Except.ok cas =>
    if (cas.filter (fun c => c.parsable)).isEmpty then
      Except.error (AnyhowError.msg "CA-file did not contain any valid certs")
    else
      Except.ok (cas.filter (fun c => c.parsable))

/-- Oracle for the rustls certificate and key compatibility checks
performed by with_single_cert and with_client_auth_cert. -/
structure BuildWorld where
  serverCertKeyOk : Bool
  clientCertKeyOk : Bool

/-- Model of the rustls ServerConfig the server builder produces:
presented chain, trust roots for the client verifier, ALPN list. -/
structure ServerCfgModel where
  chain : List CertDer
  roots : List CertDer
  alpn : List String
deriving DecidableEq, Repr

/-- Model of the rustls ClientConfig the client builder produces:
presented chain, trust roots for server validation, ALPN list. -/
structure ClientCfgModel where
  chain : List CertDer
  roots : List CertDer
  alpn : List String
deriving DecidableEq, Repr

/-- Model of tls.rs build_server_config (lines 61 to 75): read the
server certificate chain, the server key, and the root store from the
CA file, then build the rustls server context with ALPN h2. -/
def build_server_config (tls : TlsConfig) (fs : FileSys) (bw : BuildWorld) :
    Except AnyhowError ServerCfgModel :=
  match cert_reader fs tls.server_cert with
  | Except.error e => Except.error e
  | Except.ok server_cert =>
    match privkey_reader fs tls.server_key with
    | Except.error e => Except.error e
    | Except.ok _ =>
      match load_root_store fs tls.ca_file with
      | Except.error e => Except.error e
      | Except.ok root_store =>
        if bw.serverCertKeyOk then
          Except.ok { chain := server_cert, roots := root_store, alpn := ["h2"] }
        else
          Except.error (AnyhowError.msg "invalid server certificate or key")

/-- Model of tls.rs build_client_config (lines 79 to 93): read the
client certificate chain, the client key, and the root store from the
same CA file, then build the rustls client context with ALPN h2. -/
def build_client_config (tls : TlsConfig) (fs : FileSys) (bw : BuildWorld) :
    Except AnyhowError ClientCfgModel :=
  match cert_reader fs tls.client_cert with
  | Except.error e => Except.error e
  | Except.ok client_cert =>
    match privkey_reader fs tls.client_key with
    | Except.error e => Except.error e
    | Except.ok _ =>
      match load_root_store fs tls.ca_file with
      | Except.error e => Except.error e
      | Except.ok root_store =>
        if bw.clientCertKeyOk then
          Except.ok { chain := client_cert, roots := root_store, alpn := ["h2"] }
        else
          Except.error (AnyhowError.msg "invalid client certificate or key")

/-- Model of the Proxy struct (proxy.rs lines 35 to 40). -/
structure ProxyModel where
  server_cfg : ServerCfgModel
  client_cfg : ClientCfgModel
  app_cfg : Config

/-- Model of Proxy::new (proxy.rs lines 186 to 195): build both TLS
contexts, propagating the first failure. -/
def ProxyModel.new (cfg : Config) (fs : FileSys) (bw : BuildWorld) :
    Except AnyhowError ProxyModel :=
  match build_server_config cfg.tls fs bw with
  | Except.error e => Except.error e
  | Except.ok s =>
    match build_client_config cfg.tls fs bw with
    | Except.error e => Except.error e
    | Except.ok c => Except.ok { server_cfg := s, client_cfg := c, app_cfg := cfg }

/-- Oracle for the listener: the outcome of TcpListener::bind and a
finite trace of accept outcomes (each failed accept or an accepted
connection together with the world of that connection). -/
structure ListenWorld where
  bindResult : Except AnyhowError Unit
  accepts : List (Except AnyhowError ConnWorld)

/-- State of the accept loop after processing a finite trace: still
running (the loop in the source never returns on its own), or failed
because the bind itself failed. -/
inductive LoopStatus where
  | running
  | failed (e : AnyhowError)
deriving DecidableEq, Repr

/-- Model of the task spawned per accepted connection (proxy.rs lines
87 to 91): run handle_connection and log a connection-level error line
when it fails. -/
def spawned_task (cfg : Config) (w : ConnWorld) : List Event :=
  Event.spawnConn ::
    (match handle_connection cfg w with
     | (Except.error _, evs) => evs ++ [Event.logConnError]
     | (Except.ok _, evs) => evs)

/-- Model of one iteration of the accept loop body (proxy.rs lines 78
to 91): a failed accept is logged with a warning and the loop goes on;
a successful accept spawns the connection task. -/
def accept_step (cfg : Config) (a : Except AnyhowError ConnWorld) : List Event :=
  match a with
  | Except.error _ => [Event.warnAcceptFailed]
  | Except.ok w => spawned_task cfg w

/-- Events produced by iterating the loop body over the accept trace. -/
def acceptEvents (cfg : Config) : List (Except AnyhowError ConnWorld) → List Event
  | [] => []
  | a :: rest => accept_step cfg a ++ acceptEvents cfg rest

/-- Model of Proxy::accept_loop (proxy.rs lines 73 to 94): attempt the
bind; a bind failure propagates out of the loop; otherwise iterate the
loop body over the accept trace, never returning on an accept
failure. -/
def accept_loop (cfg : Config) (lw : ListenWorld) : LoopStatus × List Event :=
  match lw.bindResult with
  | Except.error e => (LoopStatus.failed e, [Event.bindAttempt cfg.listen])
  | Except.ok _ =>
    (LoopStatus.running, Event.bindAttempt cfg.listen :: acceptEvents cfg lw.accepts)

/-- Model of Proxy::run (proxy.rs lines 52 to 64): tokio select races
the accept loop against ctrl_c.  When the shutdown signal wins the
result is Ok; when the accept loop fails first its error propagates.
A loop still running corresponds to waiting until ctrl_c eventually
arrives, hence Ok. -/
def ProxyModel.run (p : ProxyModel) (lw : ListenWorld) (ctrlCFirst : Bool) :
    Except AnyhowError Unit × List Event :=
  if ctrlCFirst then (Except.ok (), [])
  else
    match accept_loop p.app_cfg lw with
    | (LoopStatus.failed e, evs) => (Except.error e, evs)
    | (LoopStatus.running, evs) => (Except.ok (), evs)

/-- World for one process run: the configuration-loading outcome, the
file system, the rustls build oracle, the listener world, and whether
the shutdown signal wins the select race. -/
structure MainWorld where
  configResult : Except AnyhowError Config
  fs : FileSys
  bw : BuildWorld
  listen : ListenWorld
  ctrlCFirst : Bool

/-- Model of main (main.rs lines 12 to 39): load the configuration
(question-mark propagation), build the proxy (question-mark
propagation), then run it; a run error is only logged and main still
returns Ok. -/
def mainModel (mw : MainWorld) : Except AnyhowError Unit × List Event :=
  match mw.configResult with
  | Except.error e => (Except.error e, [])
  | Except.ok cfg =>
    match ProxyModel.new cfg mw.fs mw.bw with
    | Except.error e => (Except.error e, [])
    | Except.ok p =>
      match ProxyModel.run p mw.listen mw.ctrlCFirst with
      | (Except.error _, evs) => (Except.ok (), evs ++ [Event.logRunError])
      | (Except.ok _, evs) => (Except.ok (), evs)

/-- The tagged failure taxonomy from section 7 of the spec, stated as
an inductive kind so one can ask whether the implemented error values
carry such a tag. -/
inductive FailureKind where
  | startupError
  | acceptError
  | hsTimeout
  | hsCertInvalid
  | hsDialFailed
  | hsBadAddress
  | relayError
deriving DecidableEq, Repr

/-- The CA file read succeeds but yields a store with zero parsable
certificates. -/
def caYieldsNoValidCert (fs : FileSys) (path : String) : Prop :=
  ∃ cs, cert_reader fs path = Except.ok cs ∧ cs.filter (fun c => c.parsable) = []

/-- Sample stream the inbound client delivers. -/
def sA : Stream :=
  { bytes := [1, 2, 3], term := none }

/-- Sample stream the upstream delivers. -/
def sB : Stream :=
  { bytes := [7], term := none }

/-- Sample stream ending in an I/O error. -/
def sErr : Stream :=
  { bytes := [5], term := some (AnyhowError.msg "broken pipe") }

/-- Sample configuration with a well-formed upstream address. -/
def cfgEx : Config :=
  { listen := "l:1", upstream := "u:9",
    tls := { ca_file := "ca", server_cert := "sc", server_key := "sk",
             client_cert := "cc", client_key := "ck" } }

/-- Sample configuration whose upstream address lacks the colon. -/
def cfgNoColon : Config :=
  { cfgEx with upstream := "noport" }

/-- Connection world in which everything succeeds promptly. -/
def wGood : ConnWorld :=
  { inboundHs := ⟨1, Except.ok sA⟩
    tcpConnect := ⟨1, Except.ok ()⟩
    serverNameValid := fun _ => true
    outboundHs := ⟨2, Except.ok sB⟩
    relayTime := 3 }

/-- Connection world in which the inbound handshake stalls past the
five-second deadline. -/
def wInboundStall : ConnWorld :=
  { wGood with inboundHs := ⟨6, Except.ok sA⟩ }

/-- Connection world in which the inbound peer presents a certificate
the verifier rejects. -/
def wCertReject : ConnWorld :=
  { wGood with inboundHs := ⟨1, Except.error (AnyhowError.msg "invalid peer certificate")⟩ }

/-- Connection world in which both handshakes stall past their
deadlines. -/
def wBothStall : ConnWorld :=
  { wGood with inboundHs := ⟨6, Except.ok sA⟩, outboundHs := ⟨11, Except.ok sB⟩ }

/-- A certificate the root store can parse. -/
def goodCert : CertDer :=
  { der := [1], parsable := true }

/-- A certificate entry the root store cannot parse. -/
def badCert : CertDer :=
  { der := [2], parsable := false }

/-- File content holding one good certificate and one good key. -/
def fileGoodCert : FileContent :=
  { opens := true, pems := [Except.ok goodCert], keys := [Except.ok ()] }

/-- File content holding only an unparsable certificate. -/
def fileBadCA : FileContent :=
  { opens := true, pems := [Except.ok badCert], keys := [] }

/-- File system in which every file is fine. -/
def fsGood : FileSys :=
  fun _ => fileGoodCert

/-- File system in which the CA file yields no valid certificate. -/
def fsEmptyCA : FileSys :=
  fun path => if path = "ca" then fileBadCA else fileGoodCert

/-- The rustls compatibility checks succeed. -/
def bwGood : BuildWorld :=
  { serverCertKeyOk := true, clientCertKeyOk := true }

/-- Listener world in which the bind fails. -/
def lwBindFail : ListenWorld :=
  { bindResult := Except.error (AnyhowError.msg "address in use"), accepts := [] }

/-- Listener world with one failed accept followed by one successful
accept. -/
def lwGood : ListenWorld :=
  { bindResult := Except.ok ()
    accepts := [Except.error (AnyhowError.msg "accept failed"), Except.ok wGood] }

/-- Process world whose CA file yields no valid certificate. -/
def mwEmptyCA : MainWorld :=
  { configResult := Except.ok cfgEx, fs := fsEmptyCA, bw := bwGood,
    listen := lwGood, ctrlCFirst := false }

/-- Process world in which startup succeeds but the bind fails. -/
def mwBindFail : MainWorld :=
  { configResult := Except.ok cfgEx, fs := fsGood, bw := bwGood,
    listen := lwBindFail, ctrlCFirst := false }

/-- The proxy value built from cfgEx over fsGood. -/
def pEx : ProxyModel :=
  { server_cfg := { chain := [goodCert], roots := [goodCert], alpn := ["h2"] }
    client_cfg := { chain := [goodCert], roots := [goodCert], alpn := ["h2"] }
    app_cfg := cfgEx }

/-- Number of TCP connection attempts recorded in an event list. -/
def tcpAttemptCount : List Event → Nat
  | [] => 0
  | Event.tcpConnectAttempt _ :: rest => tcpAttemptCount rest + 1
  | _ :: rest => tcpAttemptCount rest

/-- Number of bind attempts recorded in an event list. -/
def bindCount : List Event → Nat
  | [] => 0
  | Event.bindAttempt _ :: rest => bindCount rest + 1
  | _ :: rest => bindCount rest

/-- Number of spawned connection tasks recorded in an event list. -/
def spawnCount : List Event → Nat
  | [] => 0
  | Event.spawnConn :: rest => spawnCount rest + 1
  | _ :: rest => spawnCount rest

/-- Number of accept-failure warnings recorded in an event list. -/
def warnAcceptCount : List Event → Nat
  | [] => 0
  | Event.warnAcceptFailed :: rest => warnAcceptCount rest + 1
  | _ :: rest => warnAcceptCount rest

/-- Number of failed accepts in an accept trace. -/
def errAcceptCount : List (Except AnyhowError ConnWorld) → Nat
  | [] => 0
  | Except.error _ :: rest => errAcceptCount rest + 1
  | _ :: rest => errAcceptCount rest

/-- Number of successful accepts in an accept trace. -/
def okAcceptCount : List (Except AnyhowError ConnWorld) → Nat
  | [] => 0
  | Except.ok _ :: rest => okAcceptCount rest + 1
  | _ :: rest => okAcceptCount rest

lemma spawnCount_append (a b : List Event) :
    spawnCount (a ++ b) = spawnCount a + spawnCount b := by
  induction a with
  | nil => simp [spawnCount]
  | cons e rest ih =>
    cases e <;> (simp [spawnCount, ih]; try omega)

lemma warnAcceptCount_append (a b : List Event) :
    warnAcceptCount (a ++ b) = warnAcceptCount a + warnAcceptCount b := by
  induction a with
  | nil => simp [warnAcceptCount]
  | cons e rest ih =>
    cases e <;> (simp [warnAcceptCount, ih]; try omega)

lemma tcpAttemptCount_append (a b : List Event) :
    tcpAttemptCount (a ++ b) = tcpAttemptCount a + tcpAttemptCount b := by
  induction a with
  | nil => simp [tcpAttemptCount]
  | cons e rest ih =>
    cases e <;> (simp [tcpAttemptCount, ih]; try omega)

/-- The raw dial emits either nothing (resolution failed) or exactly
one TCP connection attempt. -/
lemma tcpStreamConnect_events (addr : String) (w : ConnWorld) :
    (tcpStreamConnect addr w).2 = [] ∨
    (tcpStreamConnect addr w).2 = [Event.tcpConnectAttempt addr] := by
  unfold tcpStreamConnect
  by_cases h : addrHasColon addr = true
  · rw [if_pos h]
    right
    rfl
  · rw [if_neg h]
    left
    rfl

/-- The outbound dial emits exactly the events of the raw dial. -/
lemma connect_upstream_events_eq (cfg : Config) (w : ConnWorld) :
    (connect_upstream cfg w).2 = (tcpStreamConnect cfg.upstream w).2 := by
  unfold connect_upstream
  split
  · next e evs heq => rw [heq]
  · next u evs heq =>
    rw [heq]
    split
    · rfl
    · split <;> rfl

/-- The events of the outbound dial are either empty or the single TCP
connection attempt against the configured upstream address. -/
lemma connect_upstream_events (cfg : Config) (w : ConnWorld) :
    (connect_upstream cfg w).2 = [] ∨
    (connect_upstream cfg w).2 = [Event.tcpConnectAttempt cfg.upstream] := by
  rw [connect_upstream_events_eq]
  exact tcpStreamConnect_events cfg.upstream w

/-- The relay emits exactly one event: either the closing log line
with the byte counts, or the piping-error log line. -/
lemma pipe_events_shape (t : Nat) (d u : Stream) :
    (pipe t d u).2 = [Event.logPipeError] ∨
    (∃ a b, (pipe t d u).2 = [Event.logConnClosed a b]) := by
  unfold pipe
  split
  · next a b heq => exact Or.inr ⟨a, b, rfl⟩
  · next e heq => exact Or.inl rfl

lemma handle_connection_counts (cfg : Config) (w : ConnWorld) :
    spawnCount (handle_connection cfg w).2 = 0 ∧
    warnAcceptCount (handle_connection cfg w).2 = 0 := by
  unfold handle_connection
  split
  · exact ⟨rfl, rfl⟩
  · next down heq =>
    split
    · next e evs hcu =>
      have hev := connect_upstream_events cfg w
      rw [hcu] at hev
      simp only at hev
      rcases hev with hev | hev <;> subst hev <;>
        simp [spawnCount, warnAcceptCount, spawnCount_append, warnAcceptCount_append]
    · next up evs hcu =>
      split
      · next r pevs hp =>
        have hev := connect_upstream_events cfg w
        rw [hcu] at hev
        simp only at hev
        have hpev := pipe_events_shape w.relayTime down up
        rw [hp] at hpev
        simp only at hpev
        rcases hpev with hpev | ⟨a, b, hpev⟩ <;> subst hpev <;>
          rcases hev with hev | hev <;> subst hev <;>
            simp [spawnCount, warnAcceptCount, spawnCount_append, warnAcceptCount_append]

lemma spawned_task_counts (cfg : Config) (w : ConnWorld) :
    spawnCount (spawned_task cfg w) = 1 ∧
    warnAcceptCount (spawned_task cfg w) = 0 := by
  have hc := handle_connection_counts cfg w
  unfold spawned_task
  split
  · next e evs hh =>
    have h1 : spawnCount evs = 0 := by
      have := hc.1
      rw [hh] at this
      exact this
    have h2 : warnAcceptCount evs = 0 := by
      have := hc.2
      rw [hh] at this
      exact this
    simp [spawnCount, warnAcceptCount, spawnCount_append, warnAcceptCount_append, h1, h2]
  · next u evs hh =>
    have h1 : spawnCount evs = 0 := by
      have := hc.1
      rw [hh] at this
      exact this
    have h2 : warnAcceptCount evs = 0 := by
      have := hc.2
      rw [hh] at this
      exact this
    simp [spawnCount, warnAcceptCount, h1, h2]

lemma acceptEvents_counts (cfg : Config) (accepts : List (Except AnyhowError ConnWorld)) :
    spawnCount (acceptEvents cfg accepts) = okAcceptCount accepts ∧
    warnAcceptCount (acceptEvents cfg accepts) = errAcceptCount accepts := by
  induction accepts with
  | nil => exact ⟨rfl, rfl⟩
  | cons a rest ih =>
    cases a with
    | error e =>
      simp [acceptEvents, accept_step, spawnCount_append, warnAcceptCount_append,
        okAcceptCount, errAcceptCount, spawnCount, warnAcceptCount, ih.1, ih.2]
    | ok w =>
      have hs := spawned_task_counts cfg w
      simp only [acceptEvents, accept_step, spawnCount_append, warnAcceptCount_append,
        okAcceptCount, errAcceptCount, ih.1, ih.2, hs.1, hs.2]
      omega

/-- C1: for every upstream address string lacking a colon separator,
the outbound dial in connect_upstream fails before any TCP connection
attempt is made to the upstream. -/
theorem c1_malformed_upstream_fails_before_tcp (cfg : Config) (w : ConnWorld)
    (h : addrHasColon cfg.upstream = false) :
    (connect_upstream cfg w).1
        = Except.error (AnyhowError.msg ("invalid socket address: " ++ cfg.upstream)) ∧
    tcpAttemptCount (connect_upstream cfg w).2 = 0 := by
  have hres : tcpStreamConnect cfg.upstream w
      = (Except.error (AnyhowError.msg ("invalid socket address: " ++ cfg.upstream)), []) := by
    unfold tcpStreamConnect
    rw [if_neg (by simp [h])]
  unfold connect_upstream
  rw [hres]
  exact ⟨rfl, rfl⟩

theorem c1_witness :
    (connect_upstream cfgNoColon wGood).1
        = Except.error (AnyhowError.msg ("invalid socket address: " ++ cfgNoColon.upstream)) ∧
    tcpAttemptCount (connect_upstream cfgNoColon wGood).2 = 0 :=
  c1_malformed_upstream_fails_before_tcp cfgNoColon wGood (by decide)

/-- C2: for every accepted connection, when the inbound handshake
fails or times out, handle_connection returns that error and never
makes a TCP connection attempt to the upstream. -/
theorem c2_inbound_failure_blocks_outbound (cfg : Config) (w : ConnWorld)
    (e : AnyhowError) (h : tls_accept w = Except.error e) :
    (handle_connection cfg w).1 = Except.error e ∧
    tcpAttemptCount (handle_connection cfg w).2 = 0 := by
  unfold handle_connection
  rw [h]
  exact ⟨rfl, rfl⟩

theorem c2_witness :
    (handle_connection cfgEx wInboundStall).1 = Except.error (timeoutMsg 5) ∧
    tcpAttemptCount (handle_connection cfgEx wInboundStall).2 = 0 :=
  c2_inbound_failure_blocks_outbound cfgEx wInboundStall (timeoutMsg 5) rfl

/-- C3 counterexample: the claim that failures are reported as tagged
variants of the taxonomy, so callers can branch on kind rather than on
message string content, is false: the implemented error type carries
nothing but a message string, so any kind extraction that ignores
string content is constant and cannot tell the handshake timeout
produced by tls_accept on a stalled world from the certificate
failure produced on a rejecting world. -/
theorem c3_counterexample :
    ¬ ∃ kindOf : AnyhowError → FailureKind,
        (∀ s t : String, kindOf (AnyhowError.msg s) = kindOf (AnyhowError.msg t)) ∧
        (∀ e, tls_accept wInboundStall = Except.error e →
          kindOf e = FailureKind.hsTimeout) ∧
        (∀ e, tls_accept wCertReject = Except.error e →
          kindOf e = FailureKind.hsCertInvalid) := by
  rintro ⟨kindOf, hconst, ht, hc⟩
  have h1 : kindOf (timeoutMsg 5) = FailureKind.hsTimeout := ht (timeoutMsg 5) rfl
  have h2 : kindOf (AnyhowError.msg "invalid peer certificate") = FailureKind.hsCertInvalid :=
    hc (AnyhowError.msg "invalid peer certificate") rfl
  have h3 := hconst ("Operation timed out after " ++ toString 5 ++ "s")
    "invalid peer certificate"
  rw [show timeoutMsg 5
      = AnyhowError.msg ("Operation timed out after " ++ toString 5 ++ "s") from rfl] at h1
  rw [h1, h2] at h3
  exact absurd h3 (by decide)

/-- C3 amended: every failure is reported as an anyhow error carrying
only a message string; a handshake timeout is distinguishable from a
certificate-validation failure only by comparing message content, the
timeout message being the fixed operation-timed-out string. -/
theorem c3_amended_failures_are_message_strings :
    tls_accept wInboundStall = Except.error (timeoutMsg 5) ∧
    tls_accept wCertReject = Except.error (AnyhowError.msg "invalid peer certificate") ∧
    timeoutMsg 5 ≠ AnyhowError.msg "invalid peer certificate" := by
  refine ⟨rfl, rfl, ?_⟩
  decide

/-- C4 counterexample: the timeout failure is not distinct from the
error type of the operation itself: an operation that completes in
time with its own anyhow error equal to the timeout message yields a
result identical to that of an operation that exceeded the deadline,
because both live in the same anyhow error type. -/
theorem c4_counterexample :
    with_timeout (Fut.mk 6 (Except.ok ()) : Fut Unit) 5 = Except.error (timeoutMsg 5) ∧
    with_timeout (Fut.mk 0 (Except.error (timeoutMsg 5)) : Fut Unit) 5
      = Except.error (timeoutMsg 5) :=
  ⟨rfl, rfl⟩

/-- C4 amended: with_timeout returns the operation result whenever the
operation completes within the duration, and otherwise fails with the
anyhow timeout-message error, which belongs to the same anyhow error
type as the operation errors. -/
theorem c4_with_timeout_contract {α : Type} (fut : Fut α) (dur : Nat) :
    (fut.time ≤ dur → with_timeout fut dur = fut.result) ∧
    (dur < fut.time → with_timeout fut dur = Except.error (timeoutMsg dur)) := by
  constructor
  · intro h
    unfold with_timeout
    rw [if_pos h]
  · intro h
    unfold with_timeout
    rw [if_neg (by omega)]

theorem c4_witness :
    with_timeout (Fut.mk 3 (Except.ok 7) : Fut Nat) 5 = Except.ok 7 ∧
    with_timeout (Fut.mk 9 (Except.ok 7) : Fut Nat) 5 = Except.error (timeoutMsg 5) :=
  ⟨(c4_with_timeout_contract ⟨3, Except.ok 7⟩ 5).1 (by decide),
   (c4_with_timeout_contract ⟨9, Except.ok 7⟩ 5).2 (by decide)⟩

/-- C5: when the CA file yields zero valid certificates, trust-store
construction fails with the empty-store error, both the server and the
client TLS context builders fail, the process exits with an error
before any bind attempt, and no connection is ever accepted. -/
theorem c5_empty_trust_store_fatal (mw : MainWorld) (cfg : Config)
    (hcfg : mw.configResult = Except.ok cfg)
    (hca : caYieldsNoValidCert mw.fs cfg.tls.ca_file) :
    load_root_store mw.fs cfg.tls.ca_file
        = Except.error (AnyhowError.msg "CA-file did not contain any valid certs") ∧
    (∀ s, build_server_config cfg.tls mw.fs mw.bw ≠ Except.ok s) ∧
    (∀ c, build_client_config cfg.tls mw.fs mw.bw ≠ Except.ok c) ∧
    (∃ e, (mainModel mw).1 = Except.error e) ∧
    bindCount (mainModel mw).2 = 0 ∧
    spawnCount (mainModel mw).2 = 0 := by
  obtain ⟨cs, hcs, hfilter⟩ := hca
  have hload : load_root_store mw.fs cfg.tls.ca_file
      = Except.error (AnyhowError.msg "CA-file did not contain any valid certs") := by
    unfold load_root_store
    simp only [hcs]
    rw [hfilter]
    rfl
  have hserver : ∀ s, build_server_config cfg.tls mw.fs mw.bw ≠ Except.ok s := by
    intro s hok
    unfold build_server_config at hok
    cases h1 : cert_reader mw.fs cfg.tls.server_cert with
    | error e => simp [h1] at hok
    | ok sc =>
      simp only [h1] at hok
      cases h2 : privkey_reader mw.fs cfg.tls.server_key with
      | error e => simp [h2] at hok
      | ok k => simp [h2, hload] at hok
  have hclient : ∀ c, build_client_config cfg.tls mw.fs mw.bw ≠ Except.ok c := by
    intro c hok
    unfold build_client_config at hok
    cases h1 : cert_reader mw.fs cfg.tls.client_cert with
    | error e => simp [h1] at hok
    | ok sc =>
      simp only [h1] at hok
      cases h2 : privkey_reader mw.fs cfg.tls.client_key with
      | error e => simp [h2] at hok
      | ok k => simp [h2, hload] at hok
  have hnewE : ∃ e, ProxyModel.new cfg mw.fs mw.bw = Except.error e := by
    cases hbs : build_server_config cfg.tls mw.fs mw.bw with
    | error e =>
      refine ⟨e, ?_⟩
      unfold ProxyModel.new
      rw [hbs]
    | ok s => exact absurd hbs (hserver s)
  obtain ⟨e, hne⟩ := hnewE
  have hmain : mainModel mw = (Except.error e, []) := by
    unfold mainModel
    rw [hcfg]
    simp only [hne]
  refine ⟨hload, hserver, hclient, ⟨e, ?_⟩, ?_, ?_⟩
  · rw [hmain]
  · rw [hmain]
    rfl
  · rw [hmain]
    rfl

theorem c5_witness :
    load_root_store mwEmptyCA.fs cfgEx.tls.ca_file
        = Except.error (AnyhowError.msg "CA-file did not contain any valid certs") ∧
    (∀ s, build_server_config cfgEx.tls mwEmptyCA.fs mwEmptyCA.bw ≠ Except.ok s) ∧
    (∀ c, build_client_config cfgEx.tls mwEmptyCA.fs mwEmptyCA.bw ≠ Except.ok c) ∧
    (∃ e, (mainModel mwEmptyCA).1 = Except.error e) ∧
    bindCount (mainModel mwEmptyCA).2 = 0 ∧
    spawnCount (mainModel mwEmptyCA).2 = 0 :=
  c5_empty_trust_store_fatal mwEmptyCA cfgEx rfl ⟨[badCert], rfl, rfl⟩

/-- C6: the inbound handshake is guarded by the five-second deadline,
the outbound handshake by the ten-second deadline, and the relay runs
under no deadline: its outcome does not depend on how long it runs. -/
theorem c6_deadlines (cfg : Config) (w : ConnWorld) (down up : Stream) :
    (5 < w.inboundHs.time → tls_accept w = Except.error (timeoutMsg 5)) ∧
    (w.inboundHs.time ≤ 5 → tls_accept w = w.inboundHs.result) ∧
    (10 < w.outboundHs.time →
      awaitFut w.tcpConnect = Except.ok () →
      addrHasColon cfg.upstream = true →
      ∀ host, rustSplitNext cfg.upstream = some host →
        w.serverNameValid host = true →
        (connect_upstream cfg w).1 = Except.error (timeoutMsg 10)) ∧
    (∀ t1 t2, pipe t1 down up = pipe t2 down up) := by
  refine ⟨?_, ?_, ?_, ?_⟩
  · intro h
    unfold tls_accept with_timeout
    rw [if_neg (by omega)]
  · intro h
    unfold tls_accept with_timeout
    rw [if_pos h]
  · intro h10 htcp hcolon host hsplit hname
    unfold connect_upstream tcpStreamConnect
    rw [if_pos hcolon, htcp]
    simp only [hsplit]
    rw [if_pos hname]
    unfold with_timeout
    rw [if_neg (by omega)]
  · intro t1 t2
    rfl

theorem c6_witness :
    tls_accept wBothStall = Except.error (timeoutMsg 5) ∧
    (connect_upstream cfgEx wBothStall).1 = Except.error (timeoutMsg 10) ∧
    pipe 0 sA sB = pipe 1000000 sA sB := by
  have h := c6_deadlines cfgEx wBothStall sA sB
  exact ⟨h.1 (by decide), h.2.2.1 (by decide) rfl rfl "u" rfl rfl, h.2.2.2 0 1000000⟩

/-- C7: the relay copies both directions until end-of-stream or an
I/O error; on clean completion it succeeds and logs the two
directional byte counts, on any error it fails the connection with
that error, and delivered bytes are never rolled back. -/
theorem c7_relay_contract (down up : Stream) (t : Nat) :
    (down.term = none → up.term = none →
      pipe t down up
        = (Except.ok (), [Event.logConnClosed down.bytes.length up.bytes.length])) ∧
    (∀ e, down.term = some e → (pipe t down up).1 = Except.error e) ∧
    (∀ e, down.term = none → up.term = some e →
      (pipe t down up).1 = Except.error e) ∧
    (copy_bidirectional down up).toUpstream = down.bytes ∧
    (copy_bidirectional down up).toClient = up.bytes := by
  refine ⟨?_, ?_, ?_, rfl, rfl⟩
  · intro h1 h2
    simp [pipe, awaitFut, copy_bidirectional, h1, h2]
  · intro e h
    simp [pipe, awaitFut, copy_bidirectional, h]
  · intro e h1 h2
    simp [pipe, awaitFut, copy_bidirectional, h1, h2]

theorem c7_witness :
    pipe 0 sA sB = (Except.ok (), [Event.logConnClosed 3 1]) ∧
    (pipe 0 sErr sB).1 = Except.error (AnyhowError.msg "broken pipe") ∧
    (pipe 0 sA sErr).1 = Except.error (AnyhowError.msg "broken pipe") := by
  have h1 := c7_relay_contract sA sB 0
  have h2 := c7_relay_contract sErr sB 0
  have h3 := c7_relay_contract sA sErr 0
  exact ⟨h1.1 rfl rfl, h2.2.1 (AnyhowError.msg "broken pipe") rfl,
    h3.2.2.1 (AnyhowError.msg "broken pipe") rfl rfl⟩

/-- C8: a bind failure is fatal and ends the loop, while every accept
failure is logged and the loop keeps processing the remaining accept
outcomes, spawning one task per successful accept. -/
theorem c8_accept_failures_not_fatal (cfg : Config) (lw : ListenWorld) :
    (lw.bindResult = Except.ok () →
      (accept_loop cfg lw).1 = LoopStatus.running ∧
      warnAcceptCount (accept_loop cfg lw).2 = errAcceptCount lw.accepts ∧
      spawnCount (accept_loop cfg lw).2 = okAcceptCount lw.accepts) ∧
    (∀ e, lw.bindResult = Except.error e →
      (accept_loop cfg lw).1 = LoopStatus.failed e) := by
  constructor
  · intro h
    unfold accept_loop
    rw [h]
    refine ⟨rfl, ?_, ?_⟩
    · have hc := (acceptEvents_counts cfg lw.accepts).2
      simpa [warnAcceptCount] using hc
    · have hc := (acceptEvents_counts cfg lw.accepts).1
      simpa [spawnCount] using hc
  · intro e h
    unfold accept_loop
    rw [h]

theorem c8_witness :
    (accept_loop cfgEx lwGood).1 = LoopStatus.running ∧
    warnAcceptCount (accept_loop cfgEx lwGood).2 = errAcceptCount lwGood.accepts ∧
    spawnCount (accept_loop cfgEx lwGood).2 = okAcceptCount lwGood.accepts :=
  (c8_accept_failures_not_fatal cfgEx lwGood).1 rfl

/-- C9: in connect_upstream the ten-second guard covers only the TLS
handshake: the raw TCP dial is awaited before the guard applies, so
the outcome is entirely independent of how long the TCP dial takes,
and when the handshake itself is quick the result is the handshake
result no matter the TCP dial duration. -/
theorem c9_tcp_dial_unguarded (cfg : Config) (w : ConnWorld) (t : Nat) :
    connect_upstream cfg { w with tcpConnect := ⟨t, w.tcpConnect.result⟩ }
      = connect_upstream cfg w ∧
    (w.outboundHs.time ≤ 10 →
      awaitFut w.tcpConnect = Except.ok () →
      addrHasColon cfg.upstream = true →
      ∀ host, rustSplitNext cfg.upstream = some host →
        w.serverNameValid host = true →
        (connect_upstream cfg w).1 = w.outboundHs.result) := by
  constructor
  · rfl
  · intro h10 htcp hcolon host hsplit hname
    unfold connect_upstream tcpStreamConnect
    rw [if_pos hcolon, htcp]
    simp only [hsplit]
    rw [if_pos hname]
    unfold with_timeout
    rw [if_pos h10]

theorem c9_witness :
    connect_upstream cfgEx { wGood with tcpConnect := ⟨1000000, wGood.tcpConnect.result⟩ }
      = connect_upstream cfgEx wGood ∧
    (connect_upstream cfgEx wGood).1 = wGood.outboundHs.result := by
  have h := c9_tcp_dial_unguarded cfgEx wGood 1000000
  exact ⟨h.1, h.2 (by decide) rfl rfl "u" rfl rfl⟩

/-- C10: when Proxy run returns an error, main logs it and returns Ok
so the process exits successfully; only configuration-loading and
proxy-construction failures propagate a failing exit status out of
main. -/
theorem c10_run_error_exits_success (mw : MainWorld) :
    (∀ e, mw.configResult = Except.error e → (mainModel mw).1 = Except.error e) ∧
    (∀ cfg, mw.configResult = Except.ok cfg →
      (∀ e, ProxyModel.new cfg mw.fs mw.bw = Except.error e →
        (mainModel mw).1 = Except.error e) ∧
      (∀ p, ProxyModel.new cfg mw.fs mw.bw = Except.ok p →
        ∀ e, (ProxyModel.run p mw.listen mw.ctrlCFirst).1 = Except.error e →
          (mainModel mw).1 = Except.ok () ∧
          (mainModel mw).2
            = (ProxyModel.run p mw.listen mw.ctrlCFirst).2 ++ [Event.logRunError])) := by
  constructor
  · intro e h
    unfold mainModel
    rw [h]
  · intro cfg hcfg
    constructor
    · intro e hnew
      unfold mainModel
      rw [hcfg]
      simp only [hnew]
    · intro p hnew e hrun
      cases hr : ProxyModel.run p mw.listen mw.ctrlCFirst with
      | mk r evs =>
        rw [hr] at hrun
        have hr2 : r = Except.error e := hrun
        subst hr2
        constructor
        · unfold mainModel
          rw [hcfg]
          simp only [hnew, hr]
        · unfold mainModel
          rw [hcfg]
          simp only [hnew, hr]

theorem c10_witness :
    (mainModel mwBindFail).1 = Except.ok () ∧
    (mainModel mwBindFail).2
      = (ProxyModel.run pEx mwBindFail.listen mwBindFail.ctrlCFirst).2
          ++ [Event.logRunError] :=
  ((c10_run_error_exits_success mwBindFail).2 cfgEx rfl).2 pEx rfl
    (AnyhowError.msg "address in use") rfl

end MTLSProxy
